import Mathlib

/-!
Shallow embedding of the `return-policy-chatbot` backend
(`backend/index.js` and `backend/processPolicy.js`).

External collaborators (the Supabase vector store, the Google LLM and
embedding APIs, the PDF loader) are modelled as explicit parameters whose
outcomes (`Except`) are passed into the embedded functions; the embedded
functions themselves transcribe the control flow of the source.
-/

namespace ReturnPolicyChatbot

/-- A `(question, answer)` conversation turn, as stored by `BufferMemory`
via `memory.saveContext({input: question}, {output: result})`. -/
structure Turn where
  question : String
  answer : String
deriving DecidableEq, Repr

/-- Environment configuration: the three required variables read by both
`index.js` and `processPolicy.js`; `none` models an absent variable. -/
structure Env where
  googleApiKey : Option String
  supabaseUrl : Option String
  supabaseServiceRoleKey : Option String

/-- JavaScript falsiness of an environment value or request-body string:
`!x` is true for `undefined` (absent) and for the empty string. -/
def jsFalsy : Option String → Bool
  | none => true
  | some s => s == ""

/-! ## Service bootstrap (`index.js`, startup check and `initializeAIComponents`) -/

/-- Outcome of the top-level startup environment check in `index.js`
(lines after the `dotenv` load: diagnostics, then `process.exit(1)` if a
required variable is falsy). -/
structure ServerStartup where
  envDiagnosticLogged : Bool
  missingEnvErrorLogged : Bool
  exitCode : Option Nat
  componentsInitialized : Bool
  serverListening : Bool
deriving DecidableEq, Repr

/-- The startup config check of `index.js`: log diagnostics, and if any of
the three required variables is falsy, log an error and `process.exit(1)`
before `initializeAIComponents` or `app.listen` run. -/
def indexStartup (env : Env) : ServerStartup :=
  if jsFalsy env.googleApiKey || jsFalsy env.supabaseUrl ||
      jsFalsy env.supabaseServiceRoleKey then
    { envDiagnosticLogged := true, missingEnvErrorLogged := true,
      exitCode := some 1, componentsInitialized := false, serverListening := false }
  else
    { envDiagnosticLogged := true, missingEnvErrorLogged := false,
      exitCode := none, componentsInitialized := true, serverListening := true }

/-- Configuration of the `ChatGoogleGenerativeAI` client constructed in
`initializeAIComponents`. -/
structure LLMConfig where
  modelName : String
  temperature : Nat
  maxRetries : Nat
deriving DecidableEq, Repr

/-- Configuration of the `SupabaseVectorStore` constructed in
`initializeAIComponents`. -/
structure VectorStoreConfig where
  embeddingModelName : String
  tableName : String
  queryName : String
deriving DecidableEq, Repr

/-- Configuration of `vectorStore.asRetriever({ k: 3 })`. -/
structure RetrieverConfig where
  store : VectorStoreConfig
  k : Nat
deriving DecidableEq, Repr

/-- A construction event inside `initializeAIComponents`, in program order. -/
inductive InitEvent where
  | llmConstructed (c : LLMConfig)
  | vectorStoreConstructed (c : VectorStoreConfig)
  | retrieverConstructed (c : RetrieverConfig)
  | memoryConstructed (initialTurns : List Turn)
deriving DecidableEq, Repr

/-- The component bundle built by `initializeAIComponents`, together with
the ordered log of construction events. -/
structure AIComponents where
  llm : LLMConfig
  vectorStore : VectorStoreConfig
  retriever : RetrieverConfig
  initialMemory : List Turn
  events : List InitEvent
deriving DecidableEq, Repr

/-- `initializeAIComponents` from `index.js`: constructs, in order, the
Gemini LLM client (temperature 0, maxRetries 2), the Supabase vector store
(table `documents`, query `match_documents`, embeddings `embedding-001`),
the retriever (`k = 3`), and an empty `BufferMemory`. -/
def initializeAIComponents : AIComponents :=
  let llm : LLMConfig :=
    { modelName := "gemini-1.5-flash", temperature := 0, maxRetries := 2 }
  let vs : VectorStoreConfig :=
    { embeddingModelName := "embedding-001", tableName := "documents",
      queryName := "match_documents" }
  let retr : RetrieverConfig := { store := vs, k := 3 }
  let mem : List Turn := []
  { llm := llm, vectorStore := vs, retriever := retr, initialMemory := mem,
    events := [InitEvent.llmConstructed llm, InitEvent.vectorStoreConstructed vs,
               InitEvent.retrieverConstructed retr, InitEvent.memoryConstructed mem] }

/-! ## Prompt template (`PromptTemplate.fromTemplate` in `index.js`)

The template text is split at its three substitution slots
(`context`, `chat_history`, `question`); everything between the slots is
the literal template text from the source. -/

/-- Template text before the context slot. -/
def promptPre : String :=
  "\n        Använd enbart följande utdrag från returpolicyn för att svara på användarens fråga.\n        Svara alltid neutralt och faktabaserat, baserat på den angivna informationen.\n\n        Om du INTE kan hitta svaret i den tillhandahållna texten, vänligen svara artigt med något i stil med: \"Jag kunde tyvärr inte hitta svar på din fråga i vår returpolicy. Vänligen kontakta oss via e-post på support@farskvaruhornan.se så hjälper vi dig vidare.\"\n\n        ---------------------\n        "

/-- Template text between the context slot and the chat-history slot. -/
def promptMid : String :=
  "  <-- Här injiceras relevanta textbitar från din policy\n        ---------------------\n\n        Konversationshistorik:\n        "

/-- Template text between the chat-history slot and the question slot. -/
def promptQ : String :=
  "  <-- Här injiceras tidigare meddelanden (frågor och svar)\n        Användarens fråga: "

/-- Template text after the question slot. -/
def promptEnd : String := "\n        Svar:"

/-- Rendering of the retrieved documents into the context slot. -/
def renderContext (chunks : List String) : String :=
  String.intercalate "\n\n" chunks

/-- Rendering of the `BufferMemory` chat history (`returnMessages: true`,
human/AI message pairs) into the chat-history slot. -/
def renderHistory (turns : List Turn) : String :=
  String.intercalate "\n"
    (turns.map fun t => "Human: " ++ t.question ++ "\nAI: " ++ t.answer)

/-- Filling the prompt template with context, history and question
(string append is associative, so the grouping is immaterial). -/
def renderPrompt (context history question : String) : String :=
  (promptPre ++ context ++ promptMid) ++ history ++ (promptQ ++ question ++ promptEnd)

/-! ## The RAG chain (`conversationChain` in `index.js`) -/

/-- The external services the chain calls: the retriever
(`retriever.invoke`) and the LLM (`llm` applied to the rendered prompt,
with the `StringOutputParser` being the identity on the response text).
`Except.error` models a rejected promise. -/
structure Services where
  retrieve : String → Except String (List String)
  llm : String → Except String String

/-- Trace of one `conversationChain.invoke({question})` run. -/
structure ChainRun where
  retrieverInput : Option String
  retrieved : Option (Except String (List String))
  prompt : Option String
  llmInput : Option String
  output : Except String String

/-- `conversationChain.invoke({question})`: step 1 computes
`context := retriever.invoke(input.question)` (the retriever receives only
the new question) and `chat_history := memory.loadMemoryVariables({})`;
step 2 fills the prompt template; step 3 invokes the LLM; step 4 parses the
response to a string. A failing step rejects the whole invocation. -/
def runConversationChain (svc : Services) (memory : List Turn) (q : String) :
    ChainRun :=
  match svc.retrieve q with
  | Except.error e =>
      { retrieverInput := some q, retrieved := some (Except.error e),
        prompt := none, llmInput := none, output := Except.error e }
  | Except.ok chunks =>
      let p := renderPrompt (renderContext chunks) (renderHistory memory) q
      { retrieverInput := some q, retrieved := some (Except.ok chunks),
        prompt := some p, llmInput := some p, output := svc.llm p }

/-! ## HTTP routes (`index.js`) -/

/-- A JSON (or text) response body. -/
inductive RespBody where
  | answerBody (answer : String)
  | errorBody (error : String)
  | textBody (s : String)
deriving DecidableEq, Repr

/-- Result of one request to `POST /query`: the HTTP response, the memory
after the request, and whether the retriever / LLM were invoked and whether
the process terminated. -/
structure QueryResult where
  status : Nat
  body : RespBody
  memory : List Turn
  retrieverInvoked : Bool
  llmInvoked : Bool
  processExited : Bool

/-- The `POST /query` handler: `const { question } = req.body`; if
`!question`, respond 400; otherwise run the chain, and on success save the
turn via `memory.saveContext` and respond 200 `{answer}`; the `catch`
around the chain turns any failure into a 500 `{error}` response (the
process keeps running). `reqQuestion` is the `question` field of the
request body (`none` when absent). -/
def postQuery (svc : Services) (mem : List Turn) (reqQuestion : Option String) :
    QueryResult :=
  if jsFalsy reqQuestion then
    { status := 400, body := RespBody.errorBody "Fråga saknas i förfrågan.",
      memory := mem, retrieverInvoked := false, llmInvoked := false,
      processExited := false }
  else
    match (runConversationChain svc mem (reqQuestion.getD "")).output with
    | Except.ok result =>
        { status := 200, body := RespBody.answerBody result,
          memory := mem ++ [{ question := reqQuestion.getD "", answer := result }],
          retrieverInvoked := true,
          llmInvoked :=
            (runConversationChain svc mem (reqQuestion.getD "")).llmInput.isSome,
          processExited := false }
    | Except.error _ =>
        { status := 500,
          body := RespBody.errorBody "Kunde inte generera svar. Försök igen senare.",
          memory := mem, retrieverInvoked := true,
          llmInvoked :=
            (runConversationChain svc mem (reqQuestion.getD "")).llmInput.isSome,
          processExited := false }

/-- Result of one request to `GET /`. -/
structure RootResult where
  status : Nat
  body : String
  memory : List Turn

/-- The `GET /` handler: returns the static readiness string and does not
touch the conversation memory. -/
def getRoot (mem : List Turn) : RootResult :=
  { status := 200,
    body := "Välkommen till Return Policy Chatbot Backend (AI redo)!",
    memory := mem }

/-! ## Ingestion script (`processPolicy.js`) -/

/-- Observable outcome of one run of `processAndEmbedPolicy` plus the
top-level `processAndEmbedPolicy().catch(console.error)`. -/
structure IngestOutcome where
  missingEnvErrorLogged : Bool
  exitCode : Nat
  loadAttempted : Bool
  storeWriteAttempted : Bool
  uploadErrorLogged : Bool
  dimensionHintLogged : Bool
  successLogged : Bool
  processFinishedLogged : Bool
deriving DecidableEq, Repr

/-- `processAndEmbedPolicy` from `processPolicy.js`: (1) if a required
environment variable is falsy, log an error and `process.exit(1)`;
(2) load the PDF (a load failure rejects the async function; the top-level
`.catch(console.error)` only logs it, so the process still exits 0);
(3) split and embed; (4) `SupabaseVectorStore.fromDocuments` inside
`try`/`catch`: on failure the error is logged, a dimension hint is logged
when the message contains "vector dimension mismatch", and execution
continues to the final `"Processen är klar."` log; the process exits 0.
`loadResult` and `storeResult` are the outcomes of the external calls. -/
def processAndEmbedPolicy (env : Env) (loadResult : Except String (List String))
    (storeResult : Except String Unit) : IngestOutcome :=
  if jsFalsy env.googleApiKey || jsFalsy env.supabaseUrl ||
      jsFalsy env.supabaseServiceRoleKey then
    { missingEnvErrorLogged := true, exitCode := 1, loadAttempted := false,
      storeWriteAttempted := false, uploadErrorLogged := false,
      dimensionHintLogged := false, successLogged := false,
      processFinishedLogged := false }
  else
    match loadResult with
    | Except.error _ =>
        { missingEnvErrorLogged := false, exitCode := 0, loadAttempted := true,
          storeWriteAttempted := false, uploadErrorLogged := false,
          dimensionHintLogged := false, successLogged := false,
          processFinishedLogged := false }
    | Except.ok _docs =>
        match storeResult with
        | Except.ok _ =>
            { missingEnvErrorLogged := false, exitCode := 0,
              loadAttempted := true, storeWriteAttempted := true,
              uploadErrorLogged := false, dimensionHintLogged := false,
              successLogged := true, processFinishedLogged := true }
        | Except.error msg =>
            { missingEnvErrorLogged := false, exitCode := 0,
              loadAttempted := true, storeWriteAttempted := true,
              uploadErrorLogged := true,
              dimensionHintLogged :=
                decide (List.IsInfix "vector dimension mismatch".toList msg.toList),
              successLogged := false, processFinishedLogged := true }

/-! ## Chunker

Modelled from the spec: the text-chunking algorithm itself lives in the
`RecursiveCharacterTextSplitter` library, not in this repository; the
source only fixes its parameters (`chunkSize: 1000`, `chunkOverlap: 200`).
Following the spec ("splits each page into overlapping fixed-size text
windows", window = 1000 units, overlap = 200 units), the chunker is the
sliding window of width 1000 advancing by 800 units. -/

/-- Modelled from the spec: fixed-window chunking with window 1000 and
overlap 200 (step 800), the contract the source delegates to the text
splitter configured with `chunkSize: 1000, chunkOverlap: 200`. -/
def chunkDoc {α : Type} (doc : List α) : List (List α) :=
  if _h : doc.length ≤ 1000 then [doc]
  else doc.take 1000 :: chunkDoc (doc.drop 800)
termination_by doc.length
decreasing_by
  simp only [List.length_drop]
  omega

/-! ## Helper lemmas for the chunker -/

theorem chunkDoc_of_le {α : Type} (doc : List α) (h : doc.length ≤ 1000) :
    chunkDoc doc = [doc] := by
  rw [chunkDoc]
  simp [h]

theorem chunkDoc_of_gt {α : Type} (doc : List α) (h : 1000 < doc.length) :
    chunkDoc doc = doc.take 1000 :: chunkDoc (doc.drop 800) := by
  rw [chunkDoc]
  simp [Nat.not_le_of_lt h]

theorem chunkDoc_head {α : Type} (doc : List α) :
    (chunkDoc doc).head? = some (doc.take 1000) := by
  rw [chunkDoc]
  split
  · rename_i h
    simp [List.take_of_length_le h]
  · rfl

theorem chunkDoc_length_closed {α : Type} (doc : List α) :
    (chunkDoc doc).length =
      if doc.length ≤ 1000 then 1 else (doc.length - 201) / 800 + 1 := by
  induction doc using chunkDoc.induct with
  | case1 doc h =>
      rw [chunkDoc_of_le doc h]
      simp [h]
  | case2 doc h ih =>
      have hgt : 1000 < doc.length := Nat.lt_of_not_le h
      rw [chunkDoc_of_gt doc hgt]
      simp only [List.length_cons, List.length_drop] at ih ⊢
      rw [ih, if_neg h]
      split <;> omega

theorem chunkDoc_chain {α : Type} (doc : List α) :
    List.Chain' (fun c c' => c.drop 800 = c'.take 200 ∧ (c.drop 800).length = 200)
      (chunkDoc doc) := by
  induction doc using chunkDoc.induct with
  | case1 doc h =>
      rw [chunkDoc_of_le doc h]
      simp
  | case2 doc h ih =>
      have hgt : 1000 < doc.length := Nat.lt_of_not_le h
      rw [chunkDoc_of_gt doc hgt]
      refine List.chain'_cons'.mpr ⟨?_, ih⟩
      intro b hb
      rw [chunkDoc_head] at hb
      simp only [Option.mem_def, Option.some_inj] at hb
      subst hb
      constructor
      · rw [List.drop_take, List.take_take]
        norm_num
      · simp only [List.length_drop, List.length_take]
        omega

/-! ## Mocked service fixtures used by the witnesses -/

/-- A mocked stack: the retriever returns a fixed chunk and the LLM returns
a fixed answer. -/
def svcOk : Services :=
  { retrieve := fun _ => Except.ok ["Du har 30 dagars öppet köp."],
    llm := fun _ => Except.ok "Du kan returnera varan inom 30 dagar." }

/-- A mocked stack whose retriever call fails. -/
def svcDown : Services :=
  { retrieve := fun _ => Except.error "FetchError", llm := fun p => Except.ok p }

/-- A fully populated environment, used by concrete counterexamples and
witnesses. -/
def envFull : Env :=
  { googleApiKey := some "k", supabaseUrl := some "u",
    supabaseServiceRoleKey := some "s" }

/-- An environment whose `GOOGLE_API_KEY` is absent. -/
def envNoKey : Env :=
  { googleApiKey := none, supabaseUrl := some "u",
    supabaseServiceRoleKey := some "s" }

/-! ## Claims -/

/-- Claim C1, counterexample: with all configuration present, a successful
load and a failing vector-store batch write, the ingestion run does NOT
abort and fail — it completes as a success (exit code 0, final completion
message logged), because `processPolicy.js` catches the upload error. -/
theorem store_error_run_completes_counterexample :
    (processAndEmbedPolicy envFull (Except.ok ["sida 1"])
        (Except.error "TypeError: fetch failed")).exitCode = 0 ∧
    (processAndEmbedPolicy envFull (Except.ok ["sida 1"])
        (Except.error "TypeError: fetch failed")).processFinishedLogged = true := by
  constructor <;> decide

/-- Claim C1 (amended): if the configuration is present, the load succeeds
and the vector-store batch write fails, the error is caught inside
`processAndEmbedPolicy`: the upload error is logged (with the dimension
hint exactly when the message contains "vector dimension mismatch"), the
final completion message is still logged, and the run exits 0 rather than
aborting with a failure. -/
theorem store_error_caught_run_completes
    (env : Env) (docs : List String) (msg : String)
    (h1 : jsFalsy env.googleApiKey = false)
    (h2 : jsFalsy env.supabaseUrl = false)
    (h3 : jsFalsy env.supabaseServiceRoleKey = false) :
    (processAndEmbedPolicy env (Except.ok docs) (Except.error msg)).exitCode = 0 ∧
    (processAndEmbedPolicy env (Except.ok docs) (Except.error msg)).uploadErrorLogged = true ∧
    (processAndEmbedPolicy env (Except.ok docs)
        (Except.error msg)).processFinishedLogged = true ∧
    (processAndEmbedPolicy env (Except.ok docs) (Except.error msg)).dimensionHintLogged =
      decide (List.IsInfix "vector dimension mismatch".toList msg.toList) := by
  simp [processAndEmbedPolicy, h1, h2, h3]

/-- Witness for the amended C1 theorem at a concrete configuration and a
concrete connectivity-failure message. -/
theorem store_error_caught_run_completes_witness :
    (processAndEmbedPolicy envFull (Except.ok ["sida 1"])
        (Except.error "connection refused")).exitCode = 0 ∧
    (processAndEmbedPolicy envFull (Except.ok ["sida 1"])
        (Except.error "connection refused")).uploadErrorLogged = true ∧
    (processAndEmbedPolicy envFull (Except.ok ["sida 1"])
        (Except.error "connection refused")).processFinishedLogged = true ∧
    (processAndEmbedPolicy envFull (Except.ok ["sida 1"])
        (Except.error "connection refused")).dimensionHintLogged =
      decide (List.IsInfix "vector dimension mismatch".toList
        "connection refused".toList) :=
  store_error_caught_run_completes envFull ["sida 1"] "connection refused"
    (by decide) (by decide) (by decide)

/-- Claim C2: for a `POST /query` whose body has a non-empty question, when
the chain invocation (retrieval then LLM) succeeds, the handler responds
200 with an `answer` field holding the parsed LLM output, and the memory
afterward has exactly one more turn than before. -/
theorem query_success_returns_answer_and_appends_turn
    (svc : Services) (mem : List Turn) (q result : String)
    (hq : q ≠ "")
    (hrun : (runConversationChain svc mem q).output = Except.ok result) :
    (postQuery svc mem (some q)).status = 200 ∧
    (postQuery svc mem (some q)).body = RespBody.answerBody result ∧
    (postQuery svc mem (some q)).memory.length = mem.length + 1 := by
  have hfal : jsFalsy (some q) = false := by
    simp only [jsFalsy, beq_eq_false_iff_ne, ne_eq]
    exact hq
  simp [postQuery, hfal, hrun]

/-- Witness for C2 at the mocked stack, an empty memory and a concrete
question. -/
theorem query_success_returns_answer_and_appends_turn_witness :
    (postQuery svcOk [] (some "Hej")).status = 200 ∧
    (postQuery svcOk [] (some "Hej")).body =
      RespBody.answerBody "Du kan returnera varan inom 30 dagar." ∧
    (postQuery svcOk [] (some "Hej")).memory.length = ([] : List Turn).length + 1 :=
  query_success_returns_answer_and_appends_turn svcOk [] "Hej"
    "Du kan returnera varan inom 30 dagar." (by decide) rfl

/-- Claim C3: for a `POST /query` whose body has a missing or empty
question, the handler responds 400 with a JSON error body, invokes neither
the retriever nor the LLM, and leaves the memory unchanged. -/
theorem query_missing_question_rejected_without_side_effects
    (svc : Services) (mem : List Turn) (rq : Option String)
    (h : jsFalsy rq = true) :
    (postQuery svc mem rq).status = 400 ∧
    (∃ e, (postQuery svc mem rq).body = RespBody.errorBody e) ∧
    (postQuery svc mem rq).retrieverInvoked = false ∧
    (postQuery svc mem rq).llmInvoked = false ∧
    (postQuery svc mem rq).memory = mem := by
  simp [postQuery, h]

/-- Witness for C3 at a request body with no `question` field. -/
theorem query_missing_question_rejected_without_side_effects_witness :
    (postQuery svcOk [] none).status = 400 ∧
    (∃ e, (postQuery svcOk [] none).body = RespBody.errorBody e) ∧
    (postQuery svcOk [] none).retrieverInvoked = false ∧
    (postQuery svcOk [] none).llmInvoked = false ∧
    (postQuery svcOk [] none).memory = [] :=
  query_missing_question_rejected_without_side_effects svcOk [] none rfl

/-- Claim C4: for a `POST /query` with a non-empty question whose chain
invocation (retrieval or LLM) fails, the handler responds 500 with a JSON
error body and the process does not terminate. -/
theorem query_pipeline_failure_returns_500_without_crash
    (svc : Services) (mem : List Turn) (q e : String)
    (hq : q ≠ "")
    (hrun : (runConversationChain svc mem q).output = Except.error e) :
    (postQuery svc mem (some q)).status = 500 ∧
    (∃ msg, (postQuery svc mem (some q)).body = RespBody.errorBody msg) ∧
    (postQuery svc mem (some q)).processExited = false := by
  have hfal : jsFalsy (some q) = false := by
    simp only [jsFalsy, beq_eq_false_iff_ne, ne_eq]
    exact hq
  simp [postQuery, hfal, hrun]

/-- Witness for C4 at the mocked stack whose retriever call fails. -/
theorem query_pipeline_failure_returns_500_without_crash_witness :
    (postQuery svcDown [] (some "Hej")).status = 500 ∧
    (∃ msg, (postQuery svcDown [] (some "Hej")).body = RespBody.errorBody msg) ∧
    (postQuery svcDown [] (some "Hej")).processExited = false :=
  query_pipeline_failure_returns_500_without_crash svcDown [] "Hej" "FetchError"
    (by decide) rfl

/-- Claim C5: retrieval depends only on the new question — two chain runs
with the same question and different memories pass the identical input to
the retriever and obtain the identical retrieved chunks, and the memory
influences the rendered prompt only through its chat-history slot. -/
theorem retrieval_depends_only_on_question
    (svc : Services) (q : String) (m₁ m₂ : List Turn) :
    (runConversationChain svc m₁ q).retrieverInput =
      (runConversationChain svc m₂ q).retrieverInput ∧
    (runConversationChain svc m₁ q).retrieved =
      (runConversationChain svc m₂ q).retrieved ∧
    ∀ chunks, svc.retrieve q = Except.ok chunks →
      ∃ pre post : String,
        (runConversationChain svc m₁ q).prompt =
          some (pre ++ renderHistory m₁ ++ post) ∧
        (runConversationChain svc m₂ q).prompt =
          some (pre ++ renderHistory m₂ ++ post) := by
  refine ⟨?_, ?_, ?_⟩
  · cases hret : svc.retrieve q <;> simp [runConversationChain, hret]
  · cases hret : svc.retrieve q <;> simp [runConversationChain, hret]
  · intro chunks hret
    refine ⟨promptPre ++ renderContext chunks ++ promptMid,
           promptQ ++ q ++ promptEnd, ?_, ?_⟩ <;>
      simp [runConversationChain, hret, renderPrompt]

/-- Witness for C5 at the mocked stack, comparing an empty memory with a
one-turn memory. -/
theorem retrieval_depends_only_on_question_witness :
    ∃ pre post : String,
      (runConversationChain svcOk [] "Hej").prompt =
        some (pre ++ renderHistory [] ++ post) ∧
      (runConversationChain svcOk
          [{ question := "q1", answer := "a1" }] "Hej").prompt =
        some (pre ++ renderHistory [{ question := "q1", answer := "a1" }] ++ post) :=
  (retrieval_depends_only_on_question svcOk "Hej" []
      [{ question := "q1", answer := "a1" }]).2.2
    ["Du har 30 dagars öppet köp."] rfl

/-- Claim C6: if any of the three required configuration values is absent,
both the service startup and the ingestion script log a diagnostic and
terminate with exit status 1 before doing any further work (no components
initialized, no server listening, no document load, no store write). -/
theorem missing_config_exits_one_before_work
    (env : Env)
    (h : env.googleApiKey = none ∨ env.supabaseUrl = none ∨
         env.supabaseServiceRoleKey = none)
    (loadResult : Except String (List String)) (storeResult : Except String Unit) :
    (indexStartup env).exitCode = some 1 ∧
    (indexStartup env).missingEnvErrorLogged = true ∧
    (indexStartup env).componentsInitialized = false ∧
    (indexStartup env).serverListening = false ∧
    (processAndEmbedPolicy env loadResult storeResult).exitCode = 1 ∧
    (processAndEmbedPolicy env loadResult storeResult).missingEnvErrorLogged = true ∧
    (processAndEmbedPolicy env loadResult storeResult).loadAttempted = false ∧
    (processAndEmbedPolicy env loadResult storeResult).storeWriteAttempted = false := by
  have hc : (jsFalsy env.googleApiKey || jsFalsy env.supabaseUrl ||
      jsFalsy env.supabaseServiceRoleKey) = true := by
    rcases h with h | h | h <;> simp [h, jsFalsy]
  simp [indexStartup, processAndEmbedPolicy, hc]

/-- Witness for C6 at an environment missing `GOOGLE_API_KEY`. -/
theorem missing_config_exits_one_before_work_witness :
    (indexStartup envNoKey).exitCode = some 1 ∧
    (indexStartup envNoKey).missingEnvErrorLogged = true ∧
    (indexStartup envNoKey).componentsInitialized = false ∧
    (indexStartup envNoKey).serverListening = false ∧
    (processAndEmbedPolicy envNoKey (Except.ok []) (Except.ok ())).exitCode = 1 ∧
    (processAndEmbedPolicy envNoKey (Except.ok [])
      (Except.ok ())).missingEnvErrorLogged = true ∧
    (processAndEmbedPolicy envNoKey (Except.ok [])
      (Except.ok ())).loadAttempted = false ∧
    (processAndEmbedPolicy envNoKey (Except.ok [])
      (Except.ok ())).storeWriteAttempted = false :=
  missing_config_exits_one_before_work envNoKey (Or.inl rfl)
    (Except.ok []) (Except.ok ())

/-- Claim C7: with window 1000 and overlap 200, the number of chunks of a
document of length L is within 1 of ⌈L / 800⌉, and every two adjacent
chunks share exactly 200 units of text (the last 200 units of a chunk are
the first 200 units of the next one). -/
theorem chunk_count_approx_and_adjacent_overlap {α : Type} (doc : List α) :
    Nat.dist (chunkDoc doc).length ((doc.length + 799) / 800) ≤ 1 ∧
    List.Chain' (fun c c' => c.drop 800 = c'.take 200 ∧ (c.drop 800).length = 200)
      (chunkDoc doc) := by
  refine ⟨?_, chunkDoc_chain doc⟩
  rw [chunkDoc_length_closed]
  simp only [Nat.dist]
  split <;> omega

/-- Claim C8: `initializeAIComponents` constructs, in order, the LLM client
with temperature 0 and maxRetries 2, the vector store bound to table
`documents` and query `match_documents`, the retriever with k = 3, and an
empty conversation memory. -/
theorem bootstrap_constructs_components_in_order :
    initializeAIComponents.llm.temperature = 0 ∧
    initializeAIComponents.llm.maxRetries = 2 ∧
    initializeAIComponents.vectorStore.tableName = "documents" ∧
    initializeAIComponents.vectorStore.queryName = "match_documents" ∧
    initializeAIComponents.retriever.k = 3 ∧
    initializeAIComponents.initialMemory = [] ∧
    initializeAIComponents.events =
      [InitEvent.llmConstructed initializeAIComponents.llm,
       InitEvent.vectorStoreConstructed initializeAIComponents.vectorStore,
       InitEvent.retrieverConstructed initializeAIComponents.retriever,
       InitEvent.memoryConstructed initializeAIComponents.initialMemory] :=
  ⟨rfl, rfl, rfl, rfl, rfl, rfl, rfl⟩

/-- Claim C9: the conversation memory is append-only — for `GET /` and for
every `POST /query` (success, rejection and failure paths alike), the
memory before the request is a prefix, in order, of the memory after it. -/
theorem memory_append_only_across_routes
    (svc : Services) (mem : List Turn) (rq : Option String) :
    List.IsPrefix mem (postQuery svc mem rq).memory ∧
    List.IsPrefix mem (getRoot mem).memory := by
  constructor
  · unfold postQuery
    split
    · exact List.prefix_rfl
    · split
      · exact ⟨_, rfl⟩
      · exact List.prefix_rfl
  · exact List.prefix_rfl

/-- Claim C10: a failed query is atomic with respect to the memory — any
`POST /query` that responds 500 leaves the conversation memory exactly as
it was before the request. -/
theorem failed_query_leaves_memory_unchanged
    (svc : Services) (mem : List Turn) (rq : Option String)
    (h : (postQuery svc mem rq).status = 500) :
    (postQuery svc mem rq).memory = mem := by
  unfold postQuery at h ⊢
  split at h
  · simp at h
  · rename_i hfal
    rw [if_neg hfal]
    split at h
    · simp at h
    · rename_i heq
      simp [heq]

/-- Witness for C10 at the failing mocked stack and a one-turn memory. -/
theorem failed_query_leaves_memory_unchanged_witness :
    (postQuery svcDown [{ question := "q1", answer := "a1" }]
      (some "Hej")).memory = [{ question := "q1", answer := "a1" }] :=
  failed_query_leaves_memory_unchanged svcDown
    [{ question := "q1", answer := "a1" }] (some "Hej") rfl

end ReturnPolicyChatbot
